import Mathlib

/-!
Verification development for the valve actuator sizing engine
(`app-torque.py`).  The requirement calculator is embedded over the real
numbers; the actuator selection logic is embedded over the rationals so
that every predicate is decidable.  Python float division by zero raises
`ZeroDivisionError`, which is modelled with `Except`.
-/

namespace ActuatorSizing

/-- SEAL_FRICTION lookup table from the source, with the default 0.1
returned by `dict.get` for unknown materials. -/
def SEAL_FRICTION (material : String) : ℚ :=
  if material = "PTFE" then 0.05
  else if material = "Graphite" then 0.1
  else if material = "Metal" then 0.15
  else if material = "Elastomer" then 0.08
  else 0.1

/-- Valve record, fields in the order of the `Valve.__init__` parameters. -/
structure Valve where
  size : ℚ
  type : String
  pressure_class : ℕ
  seat_material : String
  stem_dia_mm : ℚ
  max_pressure : ℚ
  min_pressure : ℚ
  max_temp : ℚ
  min_temp : ℚ
deriving DecidableEq

/-- Valve.get_seal_friction from the source. -/
def Valve.get_seal_friction (v : Valve) : ℚ := SEAL_FRICTION v.seat_material

/-- Valve.get_area from the source: area in square meters of the bore. -/
noncomputable def Valve.get_area (v : Valve) : ℝ :=
  Real.pi * (((v.size : ℝ) * 0.0254) / 2) ^ 2

/-- VALVE_DATABASE from the source. -/
def VALVE_DATABASE : List Valve :=
  [⟨2, "Ball", 600, "PTFE", 20, 100, 0, 200, -20⟩,
   ⟨4, "Ball", 600, "Metal", 30, 100, 0, 250, -20⟩,
   ⟨6, "Butterfly", 300, "Elastomer", 40, 40, 0, 150, -10⟩,
   ⟨8, "Butterfly", 150, "PTFE", 50, 25, 0, 180, -10⟩,
   ⟨3, "Globe", 900, "Graphite", 25, 150, 0, 350, -50⟩,
   ⟨6, "Gate", 600, "Graphite", 35, 100, 0, 400, -30⟩,
   ⟨2, "Plug", 600, "PTFE", 22, 100, 0, 200, -20⟩,
   ⟨10, "Diaphragm", 150, "Elastomer", 60, 16, 0, 120, -10⟩]

/-- Actuator record, fields in the order of the `Actuator.__init__` parameters. -/
structure Actuator where
  model : String
  manufacturer : String
  torque : ℚ
  thrust : ℚ
  max_pressure : ℚ
  min_temp : ℚ
  max_temp : ℚ
  power : ℚ
  supply : String
  weight : ℚ
  price : ℚ
deriving DecidableEq

/-- ACTUATOR_DATABASE from the source. -/
def ACTUATOR_DATABASE : List Actuator :=
  [⟨"SR-100", "Rotork", 1000, 0, 100, -30, 120, 0.5, "Pneumatic", 25, 3500⟩,
   ⟨"SR-500", "Rotork", 5000, 0, 100, -30, 120, 1.0, "Pneumatic", 45, 5500⟩,
   ⟨"IQT-300", "Rotork", 3000, 0, 100, -40, 150, 0.75, "Electric", 40, 6500⟩,
   ⟨"SMC-200", "Emerson", 2000, 0, 100, -20, 100, 0.6, "Pneumatic", 30, 4200⟩,
   ⟨"SMC-800", "Emerson", 8000, 0, 100, -20, 100, 1.5, "Pneumatic", 65, 7800⟩,
   ⟨"F10", "Flowserve", 0, 15000, 150, -50, 200, 1.2, "Hydraulic", 85, 9500⟩,
   ⟨"F25", "Flowserve", 0, 25000, 200, -50, 250, 2.0, "Hydraulic", 120, 12500⟩,
   ⟨"E-200", "AUMA", 2000, 0, 100, -30, 120, 0.8, "Electric", 38, 5800⟩,
   ⟨"E-1000", "AUMA", 10000, 0, 100, -30, 120, 2.5, "Electric", 95, 11200⟩,
   ⟨"H-150", "Honeywell", 0, 20000, 180, -40, 180, 1.8, "Hydraulic", 100, 10500⟩]

/-- calculate_ball_valve_torque from the source. -/
noncomputable def calculate_ball_valve_torque (valve : Valve)
    (pressure_bar temperature_c : ℝ) : ℝ :=
  let base_torque := (valve.size : ℝ) * pressure_bar * 0.8
  let temp_factor : ℝ :=
    if 100 < temperature_c then 1 + (temperature_c - 100) * 0.005 else 1
  let seat_factor : ℝ :=
    if valve.seat_material = "Metal" then 1.3
    else if valve.seat_material = "Graphite" then 1.1
    else 1
  base_torque * temp_factor * seat_factor

/-- calculate_butterfly_valve_torque from the source; `size ** 1.5` is the
real power `rpow`. -/
noncomputable def calculate_butterfly_valve_torque (valve : Valve)
    (pressure_bar temperature_c : ℝ) : ℝ :=
  let base_torque := (valve.size : ℝ) ^ (1.5 : ℝ) * pressure_bar * 0.5
  let temp_factor : ℝ :=
    if 80 < temperature_c then 1 + (temperature_c - 80) * 0.007 else 1
  let seat_factor : ℝ :=
    if valve.seat_material = "Elastomer" then 0.9
    else if valve.seat_material = "PTFE" then 1
    else 1
  base_torque * temp_factor * seat_factor

/-- calculate_globe_valve_thrust from the source. -/
noncomputable def calculate_globe_valve_thrust (valve : Valve)
    (pressure_bar temperature_c : ℝ) : ℝ :=
  let dp_force := valve.get_area * pressure_bar * 100000
  let stem_area := Real.pi * ((valve.stem_dia_mm : ℝ) / 1000 / 2) ^ 2
  let packing_force := stem_area * pressure_bar * 100000 * (valve.get_seal_friction : ℝ)
  let seat_force := (valve.size : ℝ) * 1000
  let temp_factor : ℝ :=
    if 150 < temperature_c then 1 + (temperature_c - 150) * 0.002 else 1
  (dp_force + packing_force + seat_force) * temp_factor

/-- calculate_gate_valve_thrust from the source, with the conditional wedge
factor exactly as written there. -/
noncomputable def calculate_gate_valve_thrust (valve : Valve)
    (pressure_bar temperature_c : ℝ) : ℝ :=
  let dp_force := valve.get_area * pressure_bar * 100000
  let stem_area := Real.pi * ((valve.stem_dia_mm : ℝ) / 1000 / 2) ^ 2
  let packing_force := stem_area * pressure_bar * 100000 * (valve.get_seal_friction : ℝ)
  let wedge_factor : ℝ := if valve.type = "Gate" then 1.5 else 1
  let temp_factor : ℝ :=
    if 200 < temperature_c then 1 + (temperature_c - 200) * 0.0015 else 1
  (dp_force * wedge_factor + packing_force) * temp_factor

/-- calculate_valve_torque_thrust from the source: dispatch on the valve
type string. -/
noncomputable def calculate_valve_torque_thrust (valve : Valve)
    (pressure_bar temperature_c : ℝ) : ℝ × String :=
  if valve.type = "Ball" ∨ valve.type = "Plug" then
    (calculate_ball_valve_torque valve pressure_bar temperature_c, "Torque (Nm)")
  else if valve.type = "Butterfly" then
    (calculate_butterfly_valve_torque valve pressure_bar temperature_c, "Torque (Nm)")
  else if valve.type = "Globe" then
    (calculate_globe_valve_thrust valve pressure_bar temperature_c, "Thrust (N)")
  else if valve.type = "Gate" then
    (calculate_gate_valve_thrust valve pressure_bar temperature_c, "Thrust (N)")
  else if valve.type = "Diaphragm" then
    (valve.get_area * pressure_bar * 100000 * 1.2, "Thrust (N)")
  else (0, "Unknown")

/-- Selection candidate: the dict appended by find_suitable_actuators. -/
structure Candidate where
  actuator : Actuator
  capability : ℚ
  margin : ℚ
deriving DecidableEq

/-- Capability picked in the selection loop: torque for the torque unit
label, thrust otherwise. -/
def capability_of (value_type : String) (a : Actuator) : ℚ :=
  if value_type = "Torque (Nm)" then a.torque else a.thrust

/-- Supply filter test from the source line
`if supply_type and supply_type != "Any" and actuator.supply != supply_type`.
`none` models Python None and the empty string is falsy. -/
def supply_mismatch : Option String → Actuator → Prop
  | none, _ => False
  | some s, a => s ≠ "" ∧ s ≠ "Any" ∧ a.supply ≠ s

instance : (sup : Option String) → (a : Actuator) → Decidable (supply_mismatch sup a)
  | none, _ => isFalse id
  | some _, _ => inferInstanceAs (Decidable (_ ∧ _ ∧ _))

/-- Disjunction of the four `continue` guards of the selection loop. -/
def skip_actuator (value_type : String) (supply_type : Option String)
    (valve : Valve) (a : Actuator) : Prop :=
  (value_type = "Torque (Nm)" ∧ a.torque = 0) ∨
  (value_type = "Thrust (N)" ∧ a.thrust = 0) ∨
  supply_mismatch supply_type a ∨
  a.max_pressure < valve.max_pressure ∨
  valve.min_temp < a.min_temp ∨ a.max_temp < valve.max_temp

instance (vt : String) (sup : Option String) (valve : Valve) (a : Actuator) :
    Decidable (skip_actuator vt sup valve a) :=
  inferInstanceAs (Decidable (_ ∨ _ ∨ _ ∨ _ ∨ _ ∨ _))

/-- Margin formula from the source. -/
def compute_margin (required_value safety_factor capability : ℚ) : ℚ :=
  (capability / (required_value * safety_factor) - 1) * 100

/-- Selection loop of find_suitable_actuators, before the final sort.  A
qualifying actuator with a zero denominator in the margin computation is a
Python ZeroDivisionError, modelled as `Except.error`. -/
def collect_suitable (required_value : ℚ) (value_type : String) (valve : Valve)
    (safety_factor : ℚ) (supply_type : Option String) :
    List Actuator → Except Unit (List Candidate)
  | [] => Except.ok []
  | a :: rest =>
    if skip_actuator value_type supply_type valve a then
      collect_suitable required_value value_type valve safety_factor supply_type rest
    else
      let capability := capability_of value_type a
      if required_value * safety_factor ≤ capability then
        if required_value * safety_factor = 0 then Except.error ()
        else
          (collect_suitable required_value value_type valve safety_factor supply_type rest).map
            (fun tail =>
              { actuator := a, capability := capability,
                margin := compute_margin required_value safety_factor capability } :: tail)
      else
        collect_suitable required_value value_type valve safety_factor supply_type rest

/-- Sort key relation of the final `list.sort`: ascending capability. -/
def candLE (x y : Candidate) : Prop := x.capability ≤ y.capability

instance : DecidableRel candLE :=
  fun x y => inferInstanceAs (Decidable (x.capability ≤ y.capability))

instance : IsTotal Candidate candLE := ⟨fun x y => le_total x.capability y.capability⟩

instance : IsTrans Candidate candLE := ⟨fun _ _ _ h h2 => le_trans h h2⟩

/-- find_suitable_actuators from the source: run the selection loop over
the catalog, then stable-sort ascending by capability.  The Python sort is
stable, as is `List.insertionSort`. -/
def find_suitable_actuators (catalog : List Actuator) (required_value : ℚ)
    (value_type : String) (valve : Valve) (safety_factor : ℚ)
    (supply_type : Option String) : Except Unit (List Candidate) :=
  (collect_suitable required_value value_type valve safety_factor supply_type catalog).map
    (List.insertionSort candLE)

/-- Actuator with its price remapped by `f`; every other field is kept. -/
def with_price (f : ℚ → ℚ) (a : Actuator) : Actuator := { a with price := f a.price }

/-- Candidate whose actuator has its price remapped by `f`. -/
def candidate_with_price (f : ℚ → ℚ) (c : Candidate) : Candidate :=
  { c with actuator := with_price f c.actuator }

/-- Butterfly valve entry of VALVE_DATABASE, used as a concrete fixture. -/
def butterfly6 : Valve := ⟨6, "Butterfly", 300, "Elastomer", 40, 40, 0, 150, -10⟩

/-- IQT-300 entry of ACTUATOR_DATABASE, used as a concrete fixture. -/
def iqt300 : Actuator := ⟨"IQT-300", "Rotork", 3000, 0, 100, -40, 150, 0.75, "Electric", 40, 6500⟩

instance {ε α : Type} [DecidableEq ε] [DecidableEq α] : DecidableEq (Except ε α)
  | .ok a, .ok b =>
    if h : a = b then isTrue (by rw [h]) else isFalse (by intro hc; cases hc; exact h rfl)
  | .ok _, .error _ => isFalse (by intro hc; cases hc)
  | .error _, .ok _ => isFalse (by intro hc; cases hc)
  | .error e, .error f =>
    if h : e = f then isTrue (by rw [h]) else isFalse (by intro hc; cases hc; exact h rfl)

/-- Helper: every candidate produced by the selection loop comes from an
actuator that failed no `continue` guard, records its own capability and the
margin formula, and passed the capability threshold with a nonzero
denominator. -/
theorem collect_suitable_mem (req : ℚ) (vt : String) (valve : Valve) (sf : ℚ)
    (sup : Option String) (catalog : List Actuator) :
    ∀ L : List Candidate,
      collect_suitable req vt valve sf sup catalog = Except.ok L →
      ∀ c ∈ L,
        ¬ skip_actuator vt sup valve c.actuator ∧
        c.capability = capability_of vt c.actuator ∧
        req * sf ≤ c.capability ∧ req * sf ≠ 0 ∧
        c.margin = compute_margin req sf c.capability := by
  induction catalog with
  | nil =>
    intro L h c hc
    simp only [collect_suitable] at h
    injection h with h
    subst h
    simp at hc
  | cons a rest ih =>
    intro L h c hc
    simp only [collect_suitable] at h
    by_cases hskip : skip_actuator vt sup valve a
    · rw [if_pos hskip] at h
      exact ih L h c hc
    · rw [if_neg hskip] at h
      by_cases hcap : req * sf ≤ capability_of vt a
      · rw [if_pos hcap] at h
        by_cases hz : req * sf = 0
        · rw [if_pos hz] at h
          exact absurd h (by simp)
        · rw [if_neg hz] at h
          cases hrest : collect_suitable req vt valve sf sup rest with
          | error e =>
            rw [hrest] at h
            simp [Except.map] at h
          | ok L2 =>
            rw [hrest] at h
            simp only [Except.map] at h
            injection h with h
            subst h
            rcases List.mem_cons.mp hc with hceq | hctail
            · subst hceq
              exact ⟨hskip, rfl, hcap, hz, rfl⟩
            · exact ih L2 hrest c hctail
      · rw [if_neg hcap] at h
        exact ih L h c hc

/-- Helper: the result of find_suitable_actuators is ok exactly when the
selection loop is, and is then its insertion sort by capability. -/
theorem find_eq_ok (catalog : List Actuator) (req : ℚ) (vt : String) (valve : Valve)
    (sf : ℚ) (sup : Option String) (l : List Candidate) :
    find_suitable_actuators catalog req vt valve sf sup = Except.ok l ↔
      ∃ L, collect_suitable req vt valve sf sup catalog = Except.ok L ∧
        l = List.insertionSort candLE L := by
  unfold find_suitable_actuators
  cases h : collect_suitable req vt valve sf sup catalog with
  | error e => simp [Except.map]
  | ok L =>
    simp only [Except.map, Except.ok.injEq]
    constructor
    · intro hl
      exact ⟨L, rfl, hl.symm⟩
    · rintro ⟨L2, hL2, hl⟩
      subst hL2
      exact hl.symm

/-- Helper: inserting a candidate never disturbs, among the candidates of any
fixed capability `k`, anything but adding the new candidate in front of them
when it has that capability: every element skipped by `orderedInsert` has a
strictly smaller capability. -/
theorem orderedInsert_filter_key (k : ℚ) (a : Candidate) (l : List Candidate) :
    (List.orderedInsert candLE a l).filter (fun c => decide (c.capability = k)) =
      if a.capability = k then
        a :: l.filter (fun c => decide (c.capability = k))
      else l.filter (fun c => decide (c.capability = k)) := by
  induction l with
  | nil =>
    by_cases hak : a.capability = k
    · rw [if_pos hak]
      simp [List.orderedInsert, List.filter, hak]
    · rw [if_neg hak]
      simp [List.orderedInsert, List.filter, hak]
  | cons b l ih =>
    simp only [List.orderedInsert]
    by_cases hab : candLE a b
    · rw [if_pos hab]
      by_cases hak : a.capability = k
      · rw [if_pos hak]
        simp [List.filter_cons, hak]
      · rw [if_neg hak]
        simp [List.filter_cons, hak]
    · rw [if_neg hab]
      have hblt : b.capability < a.capability := lt_of_not_le hab
      by_cases hak : a.capability = k
      · rw [if_pos hak]
        have hbk : ¬ b.capability = k := by
          intro hbk
          rw [hak] at hblt
          rw [hbk] at hblt
          exact lt_irrefl k hblt
        simp [List.filter_cons, hbk, ih, hak]
      · rw [if_neg hak]
        simp [List.filter_cons, ih, hak]

/-- Helper: the insertion sort by capability keeps, for every capability
value `k`, the candidates of capability `k` in their original order. -/
theorem insertionSort_filter_key (k : ℚ) (L : List Candidate) :
    (List.insertionSort candLE L).filter (fun c => decide (c.capability = k)) =
      L.filter (fun c => decide (c.capability = k)) := by
  induction L with
  | nil => rfl
  | cons a L ih =>
    simp only [List.insertionSort]
    rw [orderedInsert_filter_key]
    by_cases hak : a.capability = k
    · rw [if_pos hak, ih, List.filter_cons]
      simp [hak]
    · rw [if_neg hak, ih, List.filter_cons]
      simp [hak]

/-- Helper: the `continue` guards never look at the price. -/
theorem skip_actuator_with_price (vt : String) (sup : Option String) (valve : Valve)
    (f : ℚ → ℚ) (a : Actuator) :
    skip_actuator vt sup valve (with_price f a) = skip_actuator vt sup valve a := by
  cases sup with
  | none => rfl
  | some s => rfl

/-- Helper: the capability never looks at the price. -/
theorem capability_of_with_price (vt : String) (f : ℚ → ℚ) (a : Actuator) :
    capability_of vt (with_price f a) = capability_of vt a := rfl

/-- Helper: the sort key never looks at the price. -/
theorem candLE_with_price (f : ℚ → ℚ) (x y : Candidate) :
    candLE (candidate_with_price f x) (candidate_with_price f y) = candLE x y := rfl

/-- Helper: the selection loop commutes with remapping every price. -/
theorem collect_suitable_with_price (f : ℚ → ℚ) (req : ℚ) (vt : String)
    (valve : Valve) (sf : ℚ) (sup : Option String) (catalog : List Actuator) :
    collect_suitable req vt valve sf sup (catalog.map (with_price f)) =
      (collect_suitable req vt valve sf sup catalog).map
        (List.map (candidate_with_price f)) := by
  induction catalog with
  | nil => rfl
  | cons a rest ih =>
    simp only [List.map_cons, collect_suitable, skip_actuator_with_price,
      capability_of_with_price]
    by_cases hskip : skip_actuator vt sup valve a
    · rw [if_pos hskip, if_pos hskip, ih]
    · rw [if_neg hskip, if_neg hskip]
      by_cases hcap : req * sf ≤ capability_of vt a
      · rw [if_pos hcap, if_pos hcap]
        by_cases hz : req * sf = 0
        · rw [if_pos hz, if_pos hz]
          rfl
        · rw [if_neg hz, if_neg hz, ih]
          cases collect_suitable req vt valve sf sup rest with
          | error e => rfl
          | ok L => rfl
      · rw [if_neg hcap, if_neg hcap, ih]

/-- Helper: ordered insertion commutes with remapping every price. -/
theorem orderedInsert_with_price (f : ℚ → ℚ) (c : Candidate) (l : List Candidate) :
    List.orderedInsert candLE (candidate_with_price f c) (l.map (candidate_with_price f)) =
      (List.orderedInsert candLE c l).map (candidate_with_price f) := by
  induction l with
  | nil => rfl
  | cons b l ih =>
    simp only [List.map_cons, List.orderedInsert]
    by_cases h : candLE c b
    · rw [if_pos h, if_pos (show candLE (candidate_with_price f c) (candidate_with_price f b) from h)]
      simp
    · rw [if_neg h, if_neg (show ¬ candLE (candidate_with_price f c) (candidate_with_price f b) from h)]
      simp [ih]

/-- Helper: the insertion sort commutes with remapping every price. -/
theorem insertionSort_with_price (f : ℚ → ℚ) (l : List Candidate) :
    List.insertionSort candLE (l.map (candidate_with_price f)) =
      (List.insertionSort candLE l).map (candidate_with_price f) := by
  induction l with
  | nil => rfl
  | cons b l ih =>
    simp only [List.map_cons, List.insertionSort, ih, orderedInsert_with_price]

/-- Helper: the actuators of the loop output form a sublist of the catalog,
in catalog order. -/
theorem collect_suitable_actuators_sublist (req : ℚ) (vt : String) (valve : Valve)
    (sf : ℚ) (sup : Option String) (catalog : List Actuator) :
    ∀ L : List Candidate,
      collect_suitable req vt valve sf sup catalog = Except.ok L →
      List.Sublist (L.map fun c => c.actuator) catalog := by
  induction catalog with
  | nil =>
    intro L h
    simp only [collect_suitable] at h
    injection h with h
    subst h
    simp
  | cons a rest ih =>
    intro L h
    simp only [collect_suitable] at h
    by_cases hskip : skip_actuator vt sup valve a
    · rw [if_pos hskip] at h
      exact (ih L h).cons a
    · rw [if_neg hskip] at h
      by_cases hcap : req * sf ≤ capability_of vt a
      · rw [if_pos hcap] at h
        by_cases hz : req * sf = 0
        · rw [if_pos hz] at h
          exact absurd h (by simp)
        · rw [if_neg hz] at h
          cases hrest : collect_suitable req vt valve sf sup rest with
          | error e =>
            rw [hrest] at h
            simp [Except.map] at h
          | ok L2 =>
            rw [hrest] at h
            simp only [Except.map] at h
            injection h with h
            subst h
            simpa using (ih L2 hrest).cons₂ a
      · rw [if_neg hcap] at h
        exact (ih L h).cons a

/-- Helper: with a zero required value, the selection loop hits the
zero-denominator margin division (the ZeroDivisionError) at the first
actuator passing the guards, and only returns cleanly (with an empty list)
when every actuator is skipped.  Needs the catalog capabilities to be
nonnegative, as they all are in ACTUATOR_DATABASE. -/
theorem collect_zero_required (vt : String) (valve : Valve) (sf : ℚ)
    (sup : Option String) (catalog : List Actuator)
    (h0 : ∀ a ∈ catalog, 0 ≤ capability_of vt a) :
    collect_suitable 0 vt valve sf sup catalog =
      if ∀ a ∈ catalog, skip_actuator vt sup valve a then Except.ok []
      else Except.error () := by
  induction catalog with
  | nil => simp [collect_suitable]
  | cons a rest ih =>
    simp only [collect_suitable]
    by_cases hskip : skip_actuator vt sup valve a
    · rw [if_pos hskip, ih (fun b hb => h0 b (List.mem_cons_of_mem a hb))]
      by_cases hall : ∀ b ∈ rest, skip_actuator vt sup valve b
      · rw [if_pos hall, if_pos (by
          intro b hb
          rcases List.mem_cons.mp hb with hb | hb
          · rw [hb]; exact hskip
          · exact hall b hb)]
      · rw [if_neg hall, if_neg (by
          intro hcon
          exact hall fun b hb => hcon b (List.mem_cons_of_mem a hb))]
    · rw [if_neg hskip]
      have hcap : (0:ℚ) * sf ≤ capability_of vt a := by
        rw [zero_mul]
        exact h0 a (List.mem_cons_self a rest)
      rw [if_pos hcap, if_pos (zero_mul sf), if_neg (by
        intro hcon
        exact hskip (hcon a (List.mem_cons_self a rest)))]

/-- Helper: a supply filter of Any is no filter at all. -/
theorem skip_actuator_any (vt : String) (valve : Valve) (a : Actuator) :
    skip_actuator vt (some "Any") valve a = skip_actuator vt none valve a := by
  simp [skip_actuator, supply_mismatch]

/-- Helper: an empty-string supply filter is falsy in Python, hence no filter. -/
theorem skip_actuator_empty (vt : String) (valve : Valve) (a : Actuator) :
    skip_actuator vt (some "") valve a = skip_actuator vt none valve a := by
  simp [skip_actuator, supply_mismatch]

/-- Helper: the selection loop under the Any filter equals the unfiltered loop. -/
theorem collect_supply_any (req : ℚ) (vt : String) (valve : Valve) (sf : ℚ)
    (catalog : List Actuator) :
    collect_suitable req vt valve sf (some "Any") catalog =
      collect_suitable req vt valve sf none catalog := by
  induction catalog with
  | nil => rfl
  | cons a rest ih =>
    simp only [collect_suitable, skip_actuator_any, ih]

/-- Helper: the selection loop under the empty-string filter equals the
unfiltered loop. -/
theorem collect_supply_empty (req : ℚ) (vt : String) (valve : Valve) (sf : ℚ)
    (catalog : List Actuator) :
    collect_suitable req vt valve sf (some "") catalog =
      collect_suitable req vt valve sf none catalog := by
  induction catalog with
  | nil => rfl
  | cons a rest ih =>
    simp only [collect_suitable, skip_actuator_empty, ih]

/-- Helper: for an actuator of the requested supply type, the guard is the
unfiltered guard. -/
theorem skip_actuator_supply_eq (vt : String) (valve : Valve) (a : Actuator)
    (s : String) (hsup : a.supply = s) :
    skip_actuator vt (some s) valve a = skip_actuator vt none valve a := by
  simp [skip_actuator, supply_mismatch, hsup]

/-- Helper: an actuator of another supply type is skipped by a specific filter. -/
theorem skip_actuator_supply_ne (vt : String) (valve : Valve) (a : Actuator)
    (s : String) (hs1 : s ≠ "") (hs2 : s ≠ "Any") (hsup : a.supply ≠ s) :
    skip_actuator vt (some s) valve a :=
  Or.inr (Or.inr (Or.inl ⟨hs1, hs2, hsup⟩))

/-- Helper: a specific supply filter equals running the unfiltered loop on
the sub-catalog of actuators with that supply type. -/
theorem collect_supply_filter (req : ℚ) (vt : String) (valve : Valve) (sf : ℚ)
    (s : String) (hs1 : s ≠ "") (hs2 : s ≠ "Any") (catalog : List Actuator) :
    collect_suitable req vt valve sf (some s) catalog =
      collect_suitable req vt valve sf none
        (catalog.filter fun a => a.supply == s) := by
  induction catalog with
  | nil => rfl
  | cons a rest ih =>
    rw [List.filter_cons]
    by_cases hsup : a.supply = s
    · rw [if_pos (by simp [hsup])]
      simp only [collect_suitable, skip_actuator_supply_eq vt valve a s hsup, ih]
    · rw [if_neg (by simp [hsup])]
      simp only [collect_suitable]
      rw [if_pos (skip_actuator_supply_ne vt valve a s hs1 hs2 hsup)]
      exact ih

/-- Helper: closed form of the ball/plug torque with the piecewise
temperature factor folded into a `max`. -/
theorem calculate_ball_valve_torque_eq (valve : Valve) (p t : ℝ) :
    calculate_ball_valve_torque valve p t =
      (valve.size : ℝ) * p * 0.8 * (1 + max 0 (t - 100) * 0.005) *
        (if valve.seat_material = "Metal" then 1.3
         else if valve.seat_material = "Graphite" then 1.1 else 1) := by
  simp only [calculate_ball_valve_torque]
  rcases le_or_lt t 100 with h | h
  · rw [if_neg (not_lt.mpr h), max_eq_left (by linarith)]
    ring
  · rw [if_pos h, max_eq_right (by linarith)]

/-- Helper: dispatch of the calculator to the ball branch for ball and
plug valves. -/
theorem calculate_valve_torque_thrust_ball (valve : Valve) (p t : ℝ)
    (hty : valve.type = "Ball" ∨ valve.type = "Plug") :
    calculate_valve_torque_thrust valve p t =
      (calculate_ball_valve_torque valve p t, "Torque (Nm)") := by
  simp only [calculate_valve_torque_thrust]
  rw [if_pos hty]

/-- Helper: closed form of the gate thrust for gate valves, with the wedge
factor resolved to 1.5 and the piecewise temperature factor folded into a
`max`. -/
theorem calculate_gate_valve_thrust_eq (valve : Valve) (p t : ℝ)
    (hty : valve.type = "Gate") :
    calculate_gate_valve_thrust valve p t =
      (valve.get_area * p * 100000 * 1.5 +
        Real.pi * ((valve.stem_dia_mm : ℝ) / 1000 / 2) ^ 2 * p * 100000 *
          (valve.get_seal_friction : ℝ)) *
        (1 + max 0 (t - 200) * 0.0015) := by
  simp only [calculate_gate_valve_thrust]
  rw [if_pos hty]
  rcases le_or_lt t 200 with h | h
  · rw [if_neg (not_lt.mpr h), max_eq_left (by linarith)]
    ring
  · rw [if_pos h, max_eq_right (by linarith)]

/-- Helper: dispatch of the calculator to the gate branch. -/
theorem calculate_valve_torque_thrust_gate (valve : Valve) (p t : ℝ)
    (hty : valve.type = "Gate") :
    calculate_valve_torque_thrust valve p t =
      (calculate_gate_valve_thrust valve p t, "Thrust (N)") := by
  simp [calculate_valve_torque_thrust, hty]

/-- Fixture: the 2-inch PTFE ball valve of VALVE_DATABASE. -/
def ball2 : Valve := ⟨2, "Ball", 600, "PTFE", 20, 100, 0, 200, -20⟩

/-- Fixture: the same ball valve with a Metal seat. -/
def ball2metal : Valve := ⟨2, "Ball", 600, "Metal", 20, 100, 0, 200, -20⟩

/-- Fixture: the 6-inch gate valve of VALVE_DATABASE. -/
def gate6 : Valve := ⟨6, "Gate", 600, "Graphite", 35, 100, 0, 400, -30⟩

/-- Fixture: a valve of a type unknown to the calculator. -/
def needle1 : Valve := ⟨1, "Needle", 150, "PTFE", 10, 10, 0, 50, 0⟩

/-- Fixture: the single candidate selected for a 100 Nm requirement on
butterfly6 with safety factor 1 and no supply filter. -/
def wCand : Candidate := ⟨iqt300, 3000, 2900⟩

/-- C1: every candidate returned by find_suitable_actuators refers to an
actuator of the requested motion type (nonzero torque for the torque unit
label, nonzero thrust for the thrust unit label), whose maximum operable
pressure is at least the valve maximum rated pressure, whose temperature
envelope contains the valve rated envelope, and whose recorded capability
(the rated torque or thrust matching the unit label) is at least
required_value times safety_factor. -/
theorem find_suitable_candidates_compatible (catalog : List Actuator)
    (req : ℚ) (vt : String) (valve : Valve) (sf : ℚ) (sup : Option String)
    (l : List Candidate) (c : Candidate)
    (hok : find_suitable_actuators catalog req vt valve sf sup = Except.ok l)
    (hc : c ∈ l) :
    (vt = "Torque (Nm)" → c.actuator.torque ≠ 0) ∧
    (vt = "Thrust (N)" → c.actuator.thrust ≠ 0) ∧
    valve.max_pressure ≤ c.actuator.max_pressure ∧
    c.actuator.min_temp ≤ valve.min_temp ∧
    valve.max_temp ≤ c.actuator.max_temp ∧
    c.capability = capability_of vt c.actuator ∧
    req * sf ≤ c.capability := by
  obtain ⟨L, hL, hl⟩ := (find_eq_ok _ _ _ _ _ _ _).mp hok
  subst hl
  obtain ⟨hskip, hcap_eq, hcap, hz, hm⟩ :=
    collect_suitable_mem req vt valve sf sup catalog L hL c
      ((List.mem_insertionSort candLE).mp hc)
  simp only [skip_actuator, not_or] at hskip
  obtain ⟨h1, h2, h3, h4, h5, h6⟩ := hskip
  exact ⟨fun hvt ht => h1 ⟨hvt, ht⟩, fun hvt ht => h2 ⟨hvt, ht⟩,
    not_lt.mp h4, not_lt.mp h5, not_lt.mp h6, hcap_eq, hcap⟩

/-- C1 witness: the theorem instantiated on the catalog, a 100 Nm
requirement for butterfly6 and the selected IQT-300 candidate. -/
theorem find_suitable_candidates_compatible_witness :
    find_suitable_actuators ACTUATOR_DATABASE 100 "Torque (Nm)" butterfly6 1 none =
      Except.ok [wCand] ∧ wCand ∈ [wCand] ∧
    (("Torque (Nm)" = "Torque (Nm)" → wCand.actuator.torque ≠ 0) ∧
     ("Torque (Nm)" = "Thrust (N)" → wCand.actuator.thrust ≠ 0) ∧
     butterfly6.max_pressure ≤ wCand.actuator.max_pressure ∧
     wCand.actuator.min_temp ≤ butterfly6.min_temp ∧
     butterfly6.max_temp ≤ wCand.actuator.max_temp ∧
     wCand.capability = capability_of "Torque (Nm)" wCand.actuator ∧
     (100 : ℚ) * 1 ≤ wCand.capability) :=
  ⟨by decide!, by decide!,
    find_suitable_candidates_compatible ACTUATOR_DATABASE 100 "Torque (Nm)"
      butterfly6 1 none [wCand] wCand (by decide!) (by decide!)⟩

/-- C2: for ball and plug valves the requirement is
size x pressure x 0.8 x temperature factor x seat factor with the torque
unit label; in particular the 2-inch PTFE ball valve at 100 bar and 20 C
gives exactly 160 Nm, and with a Metal seat exactly 208 Nm. -/
theorem ball_plug_requirement_formula :
    (∀ (valve : Valve) (p t : ℝ), valve.type = "Ball" ∨ valve.type = "Plug" →
      calculate_valve_torque_thrust valve p t =
        ((valve.size : ℝ) * p * 0.8 * (1 + max 0 (t - 100) * 0.005) *
          (if valve.seat_material = "Metal" then 1.3
           else if valve.seat_material = "Graphite" then 1.1 else 1),
         "Torque (Nm)")) ∧
    calculate_valve_torque_thrust ball2 100 20 = (160, "Torque (Nm)") ∧
    calculate_valve_torque_thrust ball2metal 100 20 = (208, "Torque (Nm)") := by
  have hform : ∀ (valve : Valve) (p t : ℝ),
      valve.type = "Ball" ∨ valve.type = "Plug" →
      calculate_valve_torque_thrust valve p t =
        ((valve.size : ℝ) * p * 0.8 * (1 + max 0 (t - 100) * 0.005) *
          (if valve.seat_material = "Metal" then 1.3
           else if valve.seat_material = "Graphite" then 1.1 else 1),
         "Torque (Nm)") := by
    intro valve p t hty
    rw [calculate_valve_torque_thrust_ball valve p t hty,
      calculate_ball_valve_torque_eq]
  refine ⟨hform, ?_, ?_⟩
  · rw [hform ball2 100 20 (Or.inl rfl)]
    simp only [Prod.mk.injEq]
    refine ⟨?_, trivial⟩
    rw [show ball2.seat_material = "PTFE" from rfl,
      if_neg (by decide : ¬("PTFE" = "Metal")),
      if_neg (by decide : ¬("PTFE" = "Graphite")),
      max_eq_left (by norm_num : (20:ℝ) - 100 ≤ 0),
      show ball2.size = 2 from rfl]
    norm_num
  · rw [hform ball2metal 100 20 (Or.inl rfl)]
    simp only [Prod.mk.injEq]
    refine ⟨?_, trivial⟩
    rw [show ball2metal.seat_material = "Metal" from rfl, if_pos rfl,
      max_eq_left (by norm_num : (20:ℝ) - 100 ≤ 0),
      show ball2metal.size = 2 from rfl]
    norm_num

/-- C3 counterexample: with required value 0 and safety factor 5/4 > 0 on
butterfly6, the IQT-300 actuator passes every guard, so the source hits
the margin division by zero and raises, instead of returning the
qualifying actuators. -/
theorem find_suitable_zero_required_counterexample :
    (0 : ℚ) < 5 / 4 ∧
    ¬ skip_actuator "Torque (Nm)" none butterfly6 iqt300 ∧
    find_suitable_actuators ACTUATOR_DATABASE 0 "Torque (Nm)" butterfly6 (5 / 4) none =
      Except.error () :=
  ⟨by decide!, by decide!, by decide!⟩

/-- C3 amended: with required value 0 and a positive safety factor,
find_suitable_actuators raises ZeroDivisionError (the error value) as soon
as any actuator passes the motion, supply, pressure and temperature
guards, and returns cleanly with the empty list only when every actuator
is skipped. -/
theorem find_suitable_zero_required (catalog : List Actuator) (vt : String)
    (valve : Valve) (sf : ℚ) (sup : Option String) (hsf : 0 < sf)
    (h0 : ∀ a ∈ catalog, 0 ≤ capability_of vt a) :
    find_suitable_actuators catalog 0 vt valve sf sup =
      if ∀ a ∈ catalog, skip_actuator vt sup valve a then Except.ok []
      else Except.error () := by
  unfold find_suitable_actuators
  rw [collect_zero_required vt valve sf sup catalog h0]
  by_cases hall : ∀ a ∈ catalog, skip_actuator vt sup valve a
  · rw [if_pos hall]
    rfl
  · rw [if_neg hall]
    rfl

/-- C3 witness: the amended theorem instantiated on the catalog and
butterfly6 with safety factor 5/4. -/
theorem find_suitable_zero_required_witness :
    (0 : ℚ) < 5 / 4 ∧
    (∀ a ∈ ACTUATOR_DATABASE, 0 ≤ capability_of "Torque (Nm)" a) ∧
    find_suitable_actuators ACTUATOR_DATABASE 0 "Torque (Nm)" butterfly6 (5 / 4) none =
      (if ∀ a ∈ ACTUATOR_DATABASE, skip_actuator "Torque (Nm)" none butterfly6 a
        then Except.ok [] else Except.error ()) :=
  ⟨by decide!, by decide!,
    find_suitable_zero_required ACTUATOR_DATABASE "Torque (Nm)" butterfly6 (5 / 4)
      none (by decide!) (by decide!)⟩

/-- C4: with a nonzero denominator, every returned candidate stores the
margin (capability / (required x safety) - 1) x 100, equivalently its
capability is required x safety x (1 + margin / 100). -/
theorem find_suitable_margin_formula (catalog : List Actuator) (req : ℚ)
    (vt : String) (valve : Valve) (sf : ℚ) (sup : Option String)
    (l : List Candidate) (c : Candidate) (hne : req * sf ≠ 0)
    (hok : find_suitable_actuators catalog req vt valve sf sup = Except.ok l)
    (hc : c ∈ l) :
    c.margin = (c.capability / (req * sf) - 1) * 100 ∧
    c.capability = req * sf * (1 + c.margin / 100) := by
  obtain ⟨L, hL, hl⟩ := (find_eq_ok _ _ _ _ _ _ _).mp hok
  subst hl
  obtain ⟨-, -, -, -, hm⟩ :=
    collect_suitable_mem req vt valve sf sup catalog L hL c
      ((List.mem_insertionSort candLE).mp hc)
  unfold compute_margin at hm
  refine ⟨hm, ?_⟩
  rw [hm]
  field_simp
  ring

/-- C4 witness: the margin relation on the selected IQT-300 candidate. -/
theorem find_suitable_margin_formula_witness :
    (100 : ℚ) * 1 ≠ 0 ∧
    find_suitable_actuators ACTUATOR_DATABASE 100 "Torque (Nm)" butterfly6 1 none =
      Except.ok [wCand] ∧ wCand ∈ [wCand] ∧
    (wCand.margin = (wCand.capability / ((100 : ℚ) * 1) - 1) * 100 ∧
     wCand.capability = (100 : ℚ) * 1 * (1 + wCand.margin / 100)) :=
  ⟨by decide!, by decide!, by decide!,
    find_suitable_margin_formula ACTUATOR_DATABASE 100 "Torque (Nm)" butterfly6 1
      none [wCand] wCand (by decide!) (by decide!) (by decide!)⟩

/-- C5: any ok result is sorted by nondecreasing capability; for every
capability value the candidates of that capability keep the order of the
selection loop output, whose actuators form a sublist of the catalog
(hence ties keep catalog order, the sort is stable); and remapping every
price leaves the selection and its order untouched, so price is never a
sort criterion. -/
theorem find_suitable_sorted_stable (catalog : List Actuator) (req : ℚ)
    (vt : String) (valve : Valve) (sf : ℚ) (sup : Option String)
    (l : List Candidate)
    (hok : find_suitable_actuators catalog req vt valve sf sup = Except.ok l) :
    List.Pairwise candLE l ∧
    (∀ L, collect_suitable req vt valve sf sup catalog = Except.ok L →
      (∀ k : ℚ, l.filter (fun c => decide (c.capability = k)) =
        L.filter (fun c => decide (c.capability = k))) ∧
      List.Sublist (L.map fun c => c.actuator) catalog) ∧
    (∀ f : ℚ → ℚ,
      find_suitable_actuators (catalog.map (with_price f)) req vt valve sf sup =
        (find_suitable_actuators catalog req vt valve sf sup).map
          (List.map (candidate_with_price f))) := by
  obtain ⟨L, hL, hl⟩ := (find_eq_ok _ _ _ _ _ _ _).mp hok
  subst hl
  refine ⟨List.sorted_insertionSort candLE L, ?_, ?_⟩
  · intro L2 hL2
    rw [hL] at hL2
    injection hL2 with h
    subst h
    exact ⟨fun k => insertionSort_filter_key k L,
      collect_suitable_actuators_sublist req vt valve sf sup catalog L hL⟩
  · intro f
    unfold find_suitable_actuators
    rw [collect_suitable_with_price]
    cases hc : collect_suitable req vt valve sf sup catalog with
    | error e => rfl
    | ok L2 =>
      simp only [Except.map]
      rw [insertionSort_with_price]

/-- C5 witness: the sortedness, stability and price independence on the
concrete butterfly6 selection. -/
theorem find_suitable_sorted_stable_witness :
    find_suitable_actuators ACTUATOR_DATABASE 100 "Torque (Nm)" butterfly6 1 none =
      Except.ok [wCand] ∧
    (List.Pairwise candLE [wCand] ∧
     (∀ L, collect_suitable 100 "Torque (Nm)" butterfly6 1 none ACTUATOR_DATABASE =
        Except.ok L →
        (∀ k : ℚ, List.filter (fun c => decide (c.capability = k)) [wCand] =
          L.filter (fun c => decide (c.capability = k))) ∧
        List.Sublist (L.map fun c => c.actuator) ACTUATOR_DATABASE) ∧
     (∀ f : ℚ → ℚ,
       find_suitable_actuators (ACTUATOR_DATABASE.map (with_price f)) 100
          "Torque (Nm)" butterfly6 1 none =
         (find_suitable_actuators ACTUATOR_DATABASE 100 "Torque (Nm)" butterfly6 1
            none).map (List.map (candidate_with_price f)))) :=
  ⟨by decide!,
    find_suitable_sorted_stable ACTUATOR_DATABASE 100 "Torque (Nm)" butterfly6 1
      none [wCand] (by decide!)⟩

/-- C6 counterexample: a lowercase "any" filter is an ordinary filter
value in the source (the sentinel is "Any"), so it excludes every catalog
actuator rather than none: with it the butterfly6 selection is empty,
without a filter it returns the IQT-300 candidate. -/
theorem find_suitable_supply_any_counterexample :
    find_suitable_actuators ACTUATOR_DATABASE 100 "Torque (Nm)" butterfly6 1
      (some "any") = Except.ok [] ∧
    find_suitable_actuators ACTUATOR_DATABASE 100 "Torque (Nm)" butterfly6 1 none =
      Except.ok [wCand] :=
  ⟨by decide!, by decide!⟩

/-- C6 amended: the no-filter sentinel is the capitalized "Any" (or the
falsy empty string, or an absent filter); for any other requested supply
string exactly the actuators of a different supply type are additionally
excluded and no other check is affected: the result equals the unfiltered
run on the sub-catalog of matching supply type. -/
theorem find_suitable_supply_filter (catalog : List Actuator) (req : ℚ)
    (vt : String) (valve : Valve) (sf : ℚ) (s : String)
    (hs1 : s ≠ "") (hs2 : s ≠ "Any") :
    find_suitable_actuators catalog req vt valve sf (some "Any") =
      find_suitable_actuators catalog req vt valve sf none ∧
    find_suitable_actuators catalog req vt valve sf (some "") =
      find_suitable_actuators catalog req vt valve sf none ∧
    find_suitable_actuators catalog req vt valve sf (some s) =
      find_suitable_actuators (catalog.filter fun a => a.supply == s) req vt
        valve sf none := by
  unfold find_suitable_actuators
  rw [collect_supply_any, collect_supply_empty, collect_supply_filter req vt valve sf s hs1 hs2]
  exact ⟨rfl, rfl, rfl⟩

/-- C6 witness: the amended theorem instantiated with the Pneumatic filter
on the catalog. -/
theorem find_suitable_supply_filter_witness :
    ("Pneumatic" : String) ≠ "" ∧ ("Pneumatic" : String) ≠ "Any" ∧
    (find_suitable_actuators ACTUATOR_DATABASE 100 "Torque (Nm)" butterfly6 1
        (some "Any") =
      find_suitable_actuators ACTUATOR_DATABASE 100 "Torque (Nm)" butterfly6 1 none ∧
     find_suitable_actuators ACTUATOR_DATABASE 100 "Torque (Nm)" butterfly6 1
        (some "") =
      find_suitable_actuators ACTUATOR_DATABASE 100 "Torque (Nm)" butterfly6 1 none ∧
     find_suitable_actuators ACTUATOR_DATABASE 100 "Torque (Nm)" butterfly6 1
        (some "Pneumatic") =
      find_suitable_actuators
        (ACTUATOR_DATABASE.filter fun a => a.supply == "Pneumatic") 100
        "Torque (Nm)" butterfly6 1 none) :=
  ⟨by decide, by decide,
    find_suitable_supply_filter ACTUATOR_DATABASE 100 "Torque (Nm)" butterfly6 1
      "Pneumatic" (by decide) (by decide)⟩

/-- C7: for gate valves the requirement is the differential pressure force
scaled by the wedge factor 1.5 plus the unscaled packing friction force,
the sum scaled by the temperature factor, with the thrust unit label. -/
theorem gate_requirement_formula (valve : Valve) (p t : ℝ)
    (hty : valve.type = "Gate") :
    calculate_valve_torque_thrust valve p t =
      ((valve.get_area * p * 100000 * 1.5 +
        Real.pi * ((valve.stem_dia_mm : ℝ) / 1000 / 2) ^ 2 * p * 100000 *
          (valve.get_seal_friction : ℝ)) *
        (1 + max 0 (t - 200) * 0.0015),
       "Thrust (N)") := by
  rw [calculate_valve_torque_thrust_gate valve p t hty,
    calculate_gate_valve_thrust_eq valve p t hty]

/-- C7 witness: the gate formula on the 6-inch gate valve at 3 bar, 5 C. -/
theorem gate_requirement_formula_witness :
    gate6.type = "Gate" ∧
    calculate_valve_torque_thrust gate6 3 5 =
      ((gate6.get_area * 3 * 100000 * 1.5 +
        Real.pi * ((gate6.stem_dia_mm : ℝ) / 1000 / 2) ^ 2 * 3 * 100000 *
          (gate6.get_seal_friction : ℝ)) *
        (1 + max 0 ((5 : ℝ) - 200) * 0.0015),
       "Thrust (N)") :=
  ⟨rfl, gate_requirement_formula gate6 3 5 rfl⟩

/-- C8: for ball and plug valves of nonnegative size the requirement is
monotone nondecreasing in the pressure (pressures at least 0, temperature
fixed) and, for a fixed nonnegative pressure, monotone nondecreasing in
the temperature above 100 C. -/
theorem ball_plug_requirement_monotone (valve : Valve)
    (hty : valve.type = "Ball" ∨ valve.type = "Plug") (hsize : 0 ≤ valve.size) :
    (∀ (t p1 p2 : ℝ), 0 ≤ p1 → p1 ≤ p2 →
      (calculate_valve_torque_thrust valve p1 t).1 ≤
        (calculate_valve_torque_thrust valve p2 t).1) ∧
    (∀ (p t1 t2 : ℝ), 0 ≤ p → 100 < t1 → t1 ≤ t2 →
      (calculate_valve_torque_thrust valve p t1).1 ≤
        (calculate_valve_torque_thrust valve p t2).1) := by
  have hsize2 : (0 : ℝ) ≤ (valve.size : ℝ) := by exact_mod_cast hsize
  have hseat : (0 : ℝ) ≤ (if valve.seat_material = "Metal" then 1.3
      else if valve.seat_material = "Graphite" then 1.1 else 1) := by
    split_ifs <;> norm_num
  constructor
  · intro t p1 p2 hp1 hp12
    rw [calculate_valve_torque_thrust_ball valve p1 t hty,
      calculate_valve_torque_thrust_ball valve p2 t hty]
    show calculate_ball_valve_torque valve p1 t ≤ calculate_ball_valve_torque valve p2 t
    rw [calculate_ball_valve_torque_eq, calculate_ball_valve_torque_eq]
    have htemp : (0 : ℝ) ≤ 1 + max 0 (t - 100) * 0.005 := by
      have h1 : (0 : ℝ) ≤ max 0 (t - 100) := le_max_left 0 (t - 100)
      nlinarith
    exact mul_le_mul_of_nonneg_right (mul_le_mul_of_nonneg_right
      (mul_le_mul_of_nonneg_right (mul_le_mul_of_nonneg_left hp12 hsize2)
        (by norm_num)) htemp) hseat
  · intro p t1 t2 hp h100 ht12
    rw [calculate_valve_torque_thrust_ball valve p t1 hty,
      calculate_valve_torque_thrust_ball valve p t2 hty]
    show calculate_ball_valve_torque valve p t1 ≤ calculate_ball_valve_torque valve p t2
    rw [calculate_ball_valve_torque_eq, calculate_ball_valve_torque_eq]
    have hbase : (0 : ℝ) ≤ (valve.size : ℝ) * p * 0.8 :=
      mul_nonneg (mul_nonneg hsize2 hp) (by norm_num)
    have htemp : 1 + max 0 (t1 - 100) * 0.005 ≤ 1 + max 0 (t2 - 100) * 0.005 := by
      have h1 : max (0 : ℝ) (t1 - 100) ≤ max 0 (t2 - 100) :=
        max_le_max (le_refl 0) (sub_le_sub_right ht12 100)
      nlinarith
    exact mul_le_mul_of_nonneg_right (mul_le_mul_of_nonneg_left htemp hbase) hseat

/-- C8 witness: monotonicity instantiated on the 2-inch PTFE ball valve. -/
theorem ball_plug_requirement_monotone_witness :
    (ball2.type = "Ball" ∨ ball2.type = "Plug") ∧ (0 : ℚ) ≤ ball2.size ∧
    ((∀ (t p1 p2 : ℝ), 0 ≤ p1 → p1 ≤ p2 →
      (calculate_valve_torque_thrust ball2 p1 t).1 ≤
        (calculate_valve_torque_thrust ball2 p2 t).1) ∧
     (∀ (p t1 t2 : ℝ), 0 ≤ p → 100 < t1 → t1 ≤ t2 →
      (calculate_valve_torque_thrust ball2 p t1).1 ≤
        (calculate_valve_torque_thrust ball2 p t2).1)) :=
  ⟨Or.inl rfl, by decide!,
    ball_plug_requirement_monotone ball2 (Or.inl rfl) (by decide!)⟩

/-- C9: for a valve type that is none of the six recognized types, the
calculator returns exactly the degenerate pair (0, "Unknown") and raises
nothing. -/
theorem unknown_type_requirement (valve : Valve) (p t : ℝ)
    (h1 : valve.type ≠ "Ball") (h2 : valve.type ≠ "Plug")
    (h3 : valve.type ≠ "Butterfly") (h4 : valve.type ≠ "Globe")
    (h5 : valve.type ≠ "Gate") (h6 : valve.type ≠ "Diaphragm") :
    calculate_valve_torque_thrust valve p t = (0, "Unknown") := by
  simp only [calculate_valve_torque_thrust]
  rw [if_neg (by rintro (h | h); exacts [h1 h, h2 h]),
    if_neg h3, if_neg h4, if_neg h5, if_neg h6]

/-- C9 witness: the degenerate result on a Needle valve. -/
theorem unknown_type_requirement_witness :
    needle1.type ≠ "Ball" ∧ needle1.type ≠ "Plug" ∧
    needle1.type ≠ "Butterfly" ∧ needle1.type ≠ "Globe" ∧
    needle1.type ≠ "Gate" ∧ needle1.type ≠ "Diaphragm" ∧
    calculate_valve_torque_thrust needle1 1 1 = (0, "Unknown") :=
  ⟨by decide, by decide, by decide, by decide, by decide, by decide,
    unknown_type_requirement needle1 1 1 (by decide) (by decide) (by decide)
      (by decide) (by decide) (by decide)⟩

/-- C10: with a positive denominator, every returned candidate has a
nonnegative margin: the capability threshold guarantees no undersized
actuator is returned. -/
theorem find_suitable_margin_nonneg (catalog : List Actuator) (req : ℚ)
    (vt : String) (valve : Valve) (sf : ℚ) (sup : Option String)
    (l : List Candidate) (c : Candidate) (hpos : 0 < req * sf)
    (hok : find_suitable_actuators catalog req vt valve sf sup = Except.ok l)
    (hc : c ∈ l) :
    0 ≤ c.margin := by
  obtain ⟨L, hL, hl⟩ := (find_eq_ok _ _ _ _ _ _ _).mp hok
  subst hl
  obtain ⟨-, -, hcap, -, hm⟩ :=
    collect_suitable_mem req vt valve sf sup catalog L hL c
      ((List.mem_insertionSort candLE).mp hc)
  rw [hm]
  unfold compute_margin
  have h1 : (1 : ℚ) ≤ c.capability / (req * sf) := (one_le_div hpos).mpr hcap
  have h2 : (0 : ℚ) ≤ c.capability / (req * sf) - 1 := by linarith
  exact mul_nonneg h2 (by norm_num)

/-- C10 witness: nonnegative margin of the selected IQT-300 candidate. -/
theorem find_suitable_margin_nonneg_witness :
    (0 : ℚ) < 100 * 1 ∧
    find_suitable_actuators ACTUATOR_DATABASE 100 "Torque (Nm)" butterfly6 1 none =
      Except.ok [wCand] ∧ wCand ∈ [wCand] ∧ 0 ≤ wCand.margin :=
  ⟨by decide!, by decide!, by decide!,
    find_suitable_margin_nonneg ACTUATOR_DATABASE 100 "Torque (Nm)" butterfly6 1
      none [wCand] wCand (by decide!) (by decide!) (by decide!)⟩

end ActuatorSizing
